import Mathlib

/-!
Shallow embedding of the assessment-service request handlers in
`src/index.py` (class `Assessments`).  Python dictionaries are modelled as
association lists of string keys and `Val` values with Python-dict
operation semantics (first-match lookup, in-place overwrite on set,
append for new keys).  Each handler becomes a pure function taking the
results of its collaborator calls (document store, renderer, storage,
course helper) as explicit inputs; raised exceptions become `Except`
errors, and observable side effects (collaborator invocations) are
returned as explicit effect records.
-/

namespace AssessmentService

/-- A Python value, as far as the handlers inspect values: strings,
integers, `None`, or opaque object ids (modelled as strings). -/
inductive Val where
  | null
  | str (s : String)
  | int (n : Int)
deriving DecidableEq, Repr

/-- A Python dict: association list of string keys. Real dicts have
pairwise-distinct keys; operations below agree with Python on such lists. -/
abbrev Doc := List (String × Val)

/-- `d[k]` as an `Option`: first entry with key `k`. -/
def dlookup : Doc → String → Option Val
  | [], _ => none
  | kv :: rest, k => if kv.1 = k then some kv.2 else dlookup rest k

/-- `d.pop(k)` (the removal part): drop the entry with key `k`. -/
def dictPop (k : String) : Doc → Doc
  | [] => []
  | kv :: rest => if kv.1 = k then dictPop k rest else kv :: dictPop k rest

/-- `d[k] = v`: overwrite in place when the key exists, else append. -/
def pyDictSet (d : Doc) (k : String) (v : Val) : Doc :=
  if (dlookup d k).isSome then
    d.map (fun kv => if kv.1 = k then (k, v) else kv)
  else
    d ++ [(k, v)]

/-- `d1.update(d2)`: keys of `d1` keep their position and take `d2`'s value
when present there; keys new in `d2` are appended in `d2`'s order. -/
def pyUpdate (d1 d2 : Doc) : Doc :=
  d1.map (fun kv =>
    match dlookup d2 kv.1 with
    | some v => (kv.1, v)
    | none => kv)
  ++ d2.filter (fun kv => (dlookup d1 kv.1).isNone)

/-- Python `str()` on the values the handlers stringify. -/
def pyStr : Val → String
  | .null => "None"
  | .str s => s
  | .int n => toString n

/-- A raised `HTTPException`: status code and detail. -/
structure HTTPError where
  status_code : Nat
  detail : String
deriving DecidableEq, Repr

/-- A Python exception inside a handler body: either an `HTTPException` or
a non-HTTP exception such as a `KeyError` from a failed dict lookup. -/
inductive PyExc where
  | http (e : HTTPError)
  | keyError (k : String)
deriving DecidableEq, Repr

/-- The `try/except` boundary shared by every handler (for example
`src/index.py` lines 227-232): an `HTTPException` is re-raised unchanged,
any other exception is mapped to a 500 with the handler's fixed detail. -/
def handlerBoundary {α : Type} (detail : String) : Except PyExc α → Except HTTPError α
  | .ok a => .ok a
  | .error (.http e) => .error e
  | .error (.keyError _) => .error ⟨500, detail⟩

/-- Response shape `{"status": ..., "assessment_id": ...}`. -/
structure IdResp where
  status : String
  assessment_id : String
deriving DecidableEq, Repr

/-- Response shape `{"status": ..., "data": [...]}` for list-valued data. -/
structure DataResp where
  status : String
  data : List Doc
deriving DecidableEq, Repr

/-! ### Payload models (`app.models.models`) -/

/-- One question stub inside a submitted section. -/
structure QuestionIn where
  question_id : String
  question_latex : String
  marks : Int
deriving DecidableEq, Repr

/-- One submitted section. -/
structure SectionIn where
  section_name : String
  description : String
  questions : List QuestionIn
deriving DecidableEq, Repr

/-- The `Assessment` payload of create (and the non-id part of edit). -/
structure AssessmentIn where
  name : String
  course : String
  start_date : String
  end_date : String
  total_time : Int
  total_marks : Int
  lessons : List String
  questions : List SectionIn
deriving DecidableEq, Repr

/-- The `EditAssessment` payload: an id plus a full assessment payload. -/
structure EditIn extends AssessmentIn where
  assessment_id : String
deriving DecidableEq, Repr

/-! ### create_assessment (`src/index.py` lines 34-103) -/

/-- The section reshaping of the `assessment_data` comprehension
(`src/index.py` lines 57-71): each section is rebuilt keeping exactly
`section_name`, `description` and per-question
`question_id`/`question_latex`/`marks`. -/
def shapeSections (secs : List SectionIn) : List SectionIn :=
  secs.map (fun sec =>
    { section_name := sec.section_name
      description := sec.description
      questions := sec.questions.map (fun q =>
        { question_id := q.question_id
          question_latex := q.question_latex
          marks := q.marks }) })

/-- The document written to the assessment collection (minus the generated
`_id`), `src/index.py` lines 49-73 and 84. -/
structure AssessmentDocOut where
  name : String
  course : String
  start_date : String
  end_date : String
  total_time : Int
  total_marks : Int
  lessons : List String
  questions : List SectionIn
  last_updated : String
  question_paper : String
deriving DecidableEq, Repr

/-- Assemble the stored document from a payload, the rendered question
paper reference and the current time. -/
def buildAssessmentDoc (a : AssessmentIn) (question_paper now : String) :
    AssessmentDocOut :=
  { name := a.name
    course := a.course
    start_date := a.start_date
    end_date := a.end_date
    total_time := a.total_time
    total_marks := a.total_marks
    lessons := a.lessons
    questions := shapeSections a.questions
    last_updated := now
    question_paper := question_paper }

/-- Which collaborators `create_assessment` invoked: the latex renderer,
and the insert (recorded with the generated `_id` and the document). -/
structure CreateEffects where
  rendered : Bool
  inserted : Option (String × AssessmentDocOut)
deriving DecidableEq, Repr

/-- `create_assessment` (`src/index.py` lines 34-103).  Inputs beyond the
payload are the collaborator results: the generated ObjectId, the rendered
question-paper reference, the current time, and the id echoed back by
`insert_one`. -/
def create_assessment (a : AssessmentIn) (gen_id question_paper now inserted_id : String) :
    Except HTTPError IdResp × CreateEffects :=
  if a.questions.isEmpty then
    (.error ⟨400, "Assessment must contain at least one question"⟩,
      { rendered := false, inserted := none })
  else
    (.ok { status := "success", assessment_id := inserted_id },
      { rendered := true
        inserted := some (gen_id, buildAssessmentDoc a question_paper now) })

/-! ### list_assessments (`src/index.py` lines 105-145) -/

/-- The filter allow-list (`src/index.py` line 113). -/
def valid_filters : List String := ["course_id", "year", "month"]

/-- Which collaborators `list_assessments` invoked. -/
structure ListEffects where
  pipeline_built : Bool
  aggregation_run : Bool
deriving DecidableEq, Repr

/-- The invalid-filter names, in order (`src/index.py` line 117). -/
def invalidFilterNames (fs : Doc) : List String :=
  (fs.map Prod.fst).filter (fun k => ¬ k ∈ valid_filters)

/-- `list_assessments` (`src/index.py` lines 105-145).  `filters` is the
payload's `filters` attribute (`none` models a missing/None attribute, an
empty list models an empty dict — both falsy, skipping the check);
`agg_result` is the document store's aggregation result. -/
def list_assessments (filters : Option Doc) (agg_result : List Doc) :
    Except HTTPError DataResp × ListEffects :=
  let bad : List String :=
    match filters with
    | some fs => if fs.isEmpty then [] else invalidFilterNames fs
    | none => []
  if bad.isEmpty then
    (.ok { status := "success", data := agg_result },
      { pipeline_built := true, aggregation_run := true })
  else
    (.error ⟨400, "Invalid filter name(s): " ++ String.intercalate ", " bad⟩,
      { pipeline_built := false, aggregation_run := false })

/-! ### delete_assessment (`src/index.py` lines 404-456) -/

/-- Response shape `{"status": ..., "message": ...}`. -/
structure MsgResp where
  status : String
  message : String
deriving DecidableEq, Repr

/-- The `delete_many` query issued against the grade-record collection
(`src/index.py` lines 435-439). -/
structure GradeDeleteQuery where
  assessment_id : String
  course_id : String
deriving DecidableEq, Repr

/-- The success message f-string (`src/index.py` line 447). -/
def delete_message (n : Nat) : String :=
  "Assessment and associated " ++ toString n ++
    " student grade documents deleted successfully"

/-- `delete_assessment` (`src/index.py` lines 404-456).  `assess_deleted`
is `delete_one`'s deleted count on the assessment collection;
`grades_del` is the outcome of the best-effort `delete_many` on the grade
collection (error = it raised).  The second component records the
grade-record deletion query actually issued (`none` = never issued).
When `delete_many` raises, `result` is not reassigned, so the message
reports the stale count from the assessment deletion. -/
def delete_assessment (aid course : String) (assess_deleted : Nat)
    (grades_del : Except Unit Nat) :
    Except HTTPError MsgResp × Option GradeDeleteQuery :=
  if assess_deleted = 0 then
    (.error ⟨404, "Assessment not found"⟩, none)
  else
    let final_count : Nat :=
      match grades_del with
      | .ok n => n
      | .error _ => assess_deleted
    (.ok { status := "success", message := delete_message final_count },
      some { assessment_id := aid, course_id := course })

/-! ### edit_assessment (`src/index.py` lines 237-300) -/

/-- The `update_one` call issued by edit: query key and full replacement
document (`src/index.py` lines 281-288). -/
structure UpdateCall where
  query_id : String
  update_data : AssessmentDocOut
deriving DecidableEq, Repr

/-- `edit_assessment` (`src/index.py` lines 237-300).  `matched` is the
document store's report for the update (how many documents matched); the
handler binds it to `stat` and never inspects it, and performs no prior
existence check. -/
def edit_assessment (e : EditIn) (question_paper now : String) (matched : Nat) :
    Except HTTPError IdResp × UpdateCall :=
  ((fun _ => .ok { status := "success", assessment_id := e.assessment_id }) matched,
    { query_id := e.assessment_id
      update_data := buildAssessmentDoc e.toAssessmentIn question_paper now })

/-! ### get_assessment_details (`src/index.py` lines 147-232) -/

/-- One element of the stored assessment's `questions` array: section
metadata (`section_name`, `description`, ...) kept in `meta`, plus the list
of embedded question stub dicts. -/
structure SectionDoc where
  meta : Doc
  questions : List Doc
deriving DecidableEq, Repr

/-- The stored assessment document: its top-level fields (which must
include `_id`, `course` and `question_paper`) and its sections. -/
structure AssessmentData where
  fields : Doc
  sections : List SectionDoc
deriving DecidableEq, Repr

/-- Response shape `{"status": ..., "data": assessment}` of details. -/
structure DetailsResp where
  status : String
  data : AssessmentData
deriving DecidableEq, Repr

/-- Map a fallible step over a list, raising the first exception — the
semantics of a Python `for` loop of fallible statements. -/
def exceptMap {α β : Type} (f : α → Except PyExc β) : List α → Except PyExc (List β)
  | [] => .ok []
  | x :: xs =>
    match f x with
    | .error e => .error e
    | .ok y =>
      match exceptMap f xs with
      | .error e => .error e
      | .ok ys => .ok (y :: ys)

/-- `q['question_id']` on a stub (`src/index.py` line 172): `KeyError`
when absent. -/
def stubQid (stub : Doc) : Except PyExc Val :=
  match dlookup stub "question_id" with
  | some v => .ok v
  | none => .error (.keyError "question_id")

/-- The question-id collection comprehension (`src/index.py` line 172). -/
def collectQids (secs : List SectionDoc) : Except PyExc (List Val) :=
  match exceptMap (fun sec => exceptMap stubQid sec.questions) secs with
  | .ok xss => .ok xss.flatten
  | .error e => .error e

/-- The per-question transformation of the map-building loop
(`src/index.py` line 204): pop `_id` (value `w`), set `id` to its string
form. -/
def transformLib (q : Doc) (w : Val) : Doc :=
  pyDictSet (dictPop "_id" q) "id" (.str (pyStr w))

/-- Set a key in the string-keyed question map, Python-dict style. -/
def strMapSet (m : List (String × Doc)) (k : String) (d : Doc) :
    List (String × Doc) :=
  if k ∈ m.map Prod.fst then
    m.map (fun kv => if kv.1 = k then (k, d) else kv)
  else
    m ++ [(k, d)]

/-- First-match lookup in the string-keyed question map. -/
def lookupStr : List (String × Doc) → String → Option Doc
  | [], _ => none
  | kv :: rest, k => if kv.1 = k then some kv.2 else lookupStr rest k

/-- The map-building loop (`src/index.py` lines 200-206), threading the
accumulated `questions_data_map`: each library doc must have `_id`
(`pop` raises otherwise); the map key is the id's string form. -/
def buildQMapAux (m : List (String × Doc)) :
    List Doc → Except PyExc (List (String × Doc))
  | [] => .ok m
  | q :: rest =>
    match dlookup q "_id" with
    | none => .error (.keyError "_id")
    | some w => buildQMapAux (strMapSet m (pyStr w) (transformLib q w)) rest

/-- `questions_data_map` built from the bulk-fetched library docs. -/
def buildQMap (qdata : List Doc) : Except PyExc (List (String × Doc)) :=
  buildQMapAux [] qdata

/-- Resolve a stub's `question_id` value in the question map: map keys are
strings, so a non-string value never matches. -/
def qresolve (qmap : List (String × Doc)) : Val → Option Doc
  | .str s => lookupStr qmap s
  | _ => none

/-- The per-stub merge (`src/index.py` lines 212-218): look up the map by
the stub's `question_id` (`KeyError` when unresolved), read the stub's
original `marks`, update the stub with the library doc, restore `marks`. -/
def mergeStub (qmap : List (String × Doc)) (stub : Doc) : Except PyExc Doc :=
  match dlookup stub "question_id" with
  | none => .error (.keyError "question_id")
  | some qv =>
    match qresolve qmap qv with
    | none => .error (.keyError (pyStr qv))
    | some qdoc =>
      match dlookup stub "marks" with
      | none => .error (.keyError "marks")
      | some m => .ok (pyDictSet (pyUpdate stub qdoc) "marks" m)

/-- Merge one section's stubs (`src/index.py` lines 210-218). -/
def mergeSection (qmap : List (String × Doc)) (sec : SectionDoc) :
    Except PyExc SectionDoc :=
  match exceptMap (mergeStub qmap) sec.questions with
  | .ok qs => .ok { meta := sec.meta, questions := qs }
  | .error e => .error e

/-- Merge all sections (`src/index.py` lines 210-218). -/
def mergeSections (qmap : List (String × Doc)) (secs : List SectionDoc) :
    Except PyExc (List SectionDoc) :=
  exceptMap (mergeSection qmap) secs

/-- The body of `get_assessment_details` (`src/index.py` lines 152-225),
before the exception boundary.  Inputs are the collaborator results: the
`find_one` result on the assessment collection, the signed URL issued by
storage, and the bulk `find` result from the question library. -/
def details_body (ad : Option AssessmentData) (signed_url : String)
    (qdata : List Doc) : Except PyExc DetailsResp :=
  match ad with
  | none => .error (.http ⟨404, "No Data found for given assessment"⟩)
  | some a =>
    match dlookup a.fields "_id" with
    | none => .error (.keyError "_id")
    | some idv =>
      let fields1 := pyDictSet (dictPop "_id" a.fields) "id" (.str (pyStr idv))
      match collectQids a.sections with
      | .error e => .error e
      | .ok _qids =>
        match dlookup fields1 "question_paper" with
        | none => .error (.keyError "question_paper")
        | some _old =>
          let fields2 := pyDictSet fields1 "question_paper" (.str signed_url)
          match dlookup fields2 "course" with
          | none => .error (.keyError "course")
          | some _course =>
            match buildQMap qdata with
            | .error e => .error e
            | .ok qmap =>
              match mergeSections qmap a.sections with
              | .error e => .error e
              | .ok secs => .ok { status := "success", data := ⟨fields2, secs⟩ }

/-- `get_assessment_details` (`src/index.py` lines 147-232): body plus the
outer exception boundary. -/
def get_assessment_details (ad : Option AssessmentData) (signed_url : String)
    (qdata : List Doc) : Except HTTPError DetailsResp :=
  handlerBoundary "Internal server error" (details_body ad signed_url qdata)

/-! ### get_assessment_student_grades (`src/index.py` lines 336-402) -/

/-- Set a key in the student mapping (`Val` keys), Python-dict style. -/
def mapSet (m : List (Val × Doc)) (k : Val) (d : Doc) : List (Val × Doc) :=
  if k ∈ m.map Prod.fst then
    m.map (fun kv => if kv.1 = k then (k, d) else kv)
  else
    m ++ [(k, d)]

/-- `del students_mapping[k]` (`src/index.py` line 381). -/
def mapDel (k : Val) : List (Val × Doc) → List (Val × Doc)
  | [] => []
  | kv :: rest => if kv.1 = k then mapDel k rest else kv :: mapDel k rest

/-- The `students_mapping` comprehension (`src/index.py` line 349),
threading the accumulator: `student['student_id']` raises `KeyError` when
absent; duplicate ids overwrite. -/
def buildMappingAux (m : List (Val × Doc)) :
    List Doc → Except PyExc (List (Val × Doc))
  | [] => .ok m
  | s :: rest =>
    match dlookup s "student_id" with
    | none => .error (.keyError "student_id")
    | some v => buildMappingAux (mapSet m v s) rest

/-- `students_mapping = {student['student_id']: student for student in students_data}`. -/
def buildMapping (students : List Doc) : Except PyExc (List (Val × Doc)) :=
  buildMappingAux [] students

/-- The grade-record loop (`src/index.py` lines 377-381): pop `_id`
(`KeyError` when absent), read `student_id`, and when that id is in the
mapping delete it.  Returns the processed records and the remaining
mapping. -/
def processGrades (mapping : List (Val × Doc)) :
    List Doc → Except PyExc (List Doc × List (Val × Doc))
  | [] => .ok ([], mapping)
  | g :: gs =>
    match dlookup g "_id" with
    | none => .error (.keyError "_id")
    | some _ =>
      match dlookup (dictPop "_id" g) "student_id" with
      | none => .error (.keyError "student_id")
      | some sid =>
        match processGrades
          (if sid ∈ mapping.map Prod.fst then mapDel sid mapping else mapping) gs with
        | .error e => .error e
        | .ok (rest, mfin) => .ok (dictPop "_id" g :: rest, mfin)

/-- A synthesized placeholder grade entry
(`src/index.py` lines 363-369 and 384-390): the dict literal
`{"assessment_id": aid, "course_id": course, **student, "marks": None, "status": None}`. -/
def placeholderEntry (aid course : String) (student : Doc) : Doc :=
  pyDictSet
    (pyDictSet
      (pyUpdate [("assessment_id", .str aid), ("course_id", .str course)] student)
      "marks" .null)
    "status" .null

/-- The body of `get_assessment_student_grades`
(`src/index.py` lines 338-395), before the exception boundary.  Inputs are
the roster returned by the course collaborator and the grade records
returned by the document store for `{assessment_id, course_id}`. -/
def grades_body (aid course : String) (students_data student_grades : List Doc) :
    Except PyExc DataResp :=
  match buildMapping students_data with
  | .error e => .error e
  | .ok mapping =>
    if student_grades.isEmpty then
      .ok { status := "success"
            data := students_data.map (placeholderEntry aid course) }
    else
      match processGrades mapping student_grades with
      | .error e => .error e
      | .ok (gs, remaining) =>
        .ok { status := "success"
              data := gs ++ remaining.map (fun kv => placeholderEntry aid course kv.2) }

/-- `get_assessment_student_grades` (`src/index.py` lines 336-402): body
plus the outer exception boundary. -/
def get_assessment_student_grades (aid course : String)
    (students_data student_grades : List Doc) : Except HTTPError DataResp :=
  handlerBoundary "Failed to fetch student grades"
    (grades_body aid course students_data student_grades)

/-! ### Derived notions used to state the claims -/

/-- The `student_id` values of a list of docs, in order. -/
def idsOf (l : List Doc) : List (Option Val) :=
  l.map (fun d => dlookup d "student_id")

/-- The mapping produced from a roster whose entries all carry
`student_id` (pairing each student with their id, in order). -/
def rosterPairs : List Doc → List (Val × Doc)
  | [] => []
  | s :: rest =>
    match dlookup s "student_id" with
    | some v => (v, s) :: rosterPairs rest
    | none => rosterPairs rest

/-- Keep the mapping entries whose key is not among the given ids. -/
def mapKeep (gids : List (Option Val)) : List (Val × Doc) → List (Val × Doc)
  | [] => []
  | kv :: rest =>
    if some kv.1 ∈ gids then mapKeep gids rest else kv :: mapKeep gids rest

/-- The roster students whose id is not among the given ids. -/
def ungraded (gids : List (Option Val)) : List Doc → List Doc
  | [] => []
  | s :: rest =>
    if dlookup s "student_id" ∈ gids then ungraded gids rest
    else s :: ungraded gids rest

/-- A concrete two-student roster, for witnesses. -/
def rosterW : List Doc :=
  [[("student_id", Val.str "s1")], [("student_id", Val.str "s2")]]

/-- A concrete single stored grade record, for witnesses. -/
def gradesW : List Doc :=
  [[("_id", Val.str "g1"), ("student_id", Val.str "s1"),
    ("marks", Val.int 7), ("status", Val.str "graded")]]

/-- A concrete embedded question stub, for witnesses. -/
def stubW : Doc :=
  [("question_id", Val.str "q1"), ("question_latex", Val.str "stub latex"),
    ("marks", Val.int 5)]

/-- A concrete stored section, for witnesses. -/
def secW : SectionDoc :=
  { meta := [("section_name", Val.str "S1")], questions := [stubW] }

/-- A concrete stored assessment document, for witnesses. -/
def assessW : AssessmentData :=
  { fields := [("_id", Val.str "A"), ("course", Val.str "c1"),
      ("question_paper", Val.str "gs-url")]
    sections := [secW] }

/-- A concrete question-library fetch result resolving the stub, for
witnesses. -/
def qdataW : List Doc :=
  [[("_id", Val.str "q1"), ("question_latex", Val.str "full latex"),
    ("difficulty", Val.str "easy")]]

/-- The details response produced on the witness fixture. -/
def respW : DetailsResp :=
  ⟨"success",
    ⟨[("course", Val.str "c1"), ("question_paper", Val.str "signed"),
        ("id", Val.str "A")],
      [⟨[("section_name", Val.str "S1")],
        [[("question_id", Val.str "q1"),
          ("question_latex", Val.str "full latex"), ("marks", Val.int 5),
          ("difficulty", Val.str "easy"), ("id", Val.str "q1")]]⟩]⟩⟩

/-! ## Lemmas about the dict primitives -/

theorem dlookup_cons (kv : String × Val) (rest : Doc) (k : String) :
    dlookup (kv :: rest) k = if kv.1 = k then some kv.2 else dlookup rest k := rfl

theorem dlookup_dictPop (k k' : String) (d : Doc) :
    dlookup (dictPop k d) k' = if k' = k then none else dlookup d k' := by
  induction d with
  | nil => simp [dictPop, dlookup]
  | cons kv rest ih =>
    by_cases h1 : kv.1 = k
    · rw [dictPop, if_pos h1, ih]
      by_cases h2 : k' = k
      · simp [h2]
      · rw [if_neg h2, if_neg h2, dlookup_cons,
          if_neg (fun he : kv.1 = k' => h2 ((h1.symm.trans he).symm))]
    · rw [dictPop, if_neg h1, dlookup_cons, dlookup_cons, ih]
      by_cases h3 : kv.1 = k'
      · have hk : ¬ k' = k := fun he => h1 (h3.trans he)
        simp [h3, hk]
      · simp [h3]

theorem dlookup_map_set (d : Doc) (k k' : String) (v : Val) :
    dlookup (d.map (fun kv => if kv.1 = k then (k, v) else kv)) k' =
      if k' = k then (if (dlookup d k).isSome then some v else none)
      else dlookup d k' := by
  induction d with
  | nil => simp [dlookup]
  | cons kv rest ih =>
    by_cases h1 : kv.1 = k <;> by_cases h2 : k' = k <;>
      by_cases h3 : kv.1 = k' <;> simp_all [dlookup]

theorem dlookup_append_single (d : Doc) (k k' : String) (v : Val)
    (h : dlookup d k = none) :
    dlookup (d ++ [(k, v)]) k' = if k' = k then some v else dlookup d k' := by
  induction d with
  | nil =>
    by_cases h2 : k' = k
    · subst h2; simp [dlookup]
    · simp [dlookup, h2, Ne.symm h2]
  | cons kv rest ih =>
    rw [dlookup_cons] at h
    by_cases h1 : kv.1 = k'
    · have hk : ¬ k' = k := by
        intro he; subst he; simp [h1] at h
      simp [dlookup, h1, hk]
    · by_cases h2 : kv.1 = k
      · simp [h2] at h
      · rw [List.cons_append, dlookup_cons, if_neg h1, ih (by simpa [h2] using h),
          dlookup_cons]
        by_cases h3 : k' = k <;> simp [h3, h1]

theorem dlookup_pyDictSet (d : Doc) (k k' : String) (v : Val) :
    dlookup (pyDictSet d k v) k' = if k' = k then some v else dlookup d k' := by
  unfold pyDictSet
  by_cases h : (dlookup d k).isSome
  · simp only [h, if_true, dlookup_map_set]
  · have hn : dlookup d k = none := by
      cases hd : dlookup d k <;> simp_all
    simp only [h, if_false, Bool.false_eq_true, dlookup_append_single d k k' v hn]

theorem dlookup_append_or (d1 d2 : Doc) (k : String) :
    dlookup (d1 ++ d2) k = (dlookup d1 k).or (dlookup d2 k) := by
  induction d1 with
  | nil => simp [dlookup]
  | cons kv rest ih =>
    by_cases h : kv.1 = k <;> simp [dlookup, h, ih]

theorem dlookup_pyUpdate_map (d1 d2 : Doc) (k : String) :
    dlookup (d1.map (fun kv =>
      match dlookup d2 kv.1 with
      | some v => (kv.1, v)
      | none => kv)) k =
      if (dlookup d1 k).isSome then (dlookup d2 k).or (dlookup d1 k) else none := by
  induction d1 with
  | nil => simp [dlookup]
  | cons kv rest ih =>
    by_cases h : kv.1 = k
    · subst h
      cases h2 : dlookup d2 kv.1 <;> simp [dlookup, h2]
    · cases h2 : dlookup d2 kv.1 <;> simp [dlookup, h, h2, ih]

theorem dlookup_pyUpdate_filter (d1 d2 : Doc) (k : String) :
    dlookup (d2.filter (fun kv => (dlookup d1 kv.1).isNone)) k =
      if (dlookup d1 k).isSome then none else dlookup d2 k := by
  induction d2 with
  | nil => simp [dlookup]
  | cons kv rest ih =>
    by_cases h : kv.1 = k
    · subst h
      cases h1 : dlookup d1 kv.1 <;> simp [dlookup, List.filter_cons, h1, ih]
    · cases hic : (dlookup d1 kv.1).isNone <;>
        simp [dlookup, List.filter_cons, hic, h, ih]

theorem dlookup_pyUpdate (d1 d2 : Doc) (k : String) :
    dlookup (pyUpdate d1 d2) k = (dlookup d2 k).or (dlookup d1 k) := by
  unfold pyUpdate
  rw [dlookup_append_or, dlookup_pyUpdate_map, dlookup_pyUpdate_filter]
  by_cases h : (dlookup d1 k).isSome
  · simp [h]
  · have hn : dlookup d1 k = none := by
      cases hd : dlookup d1 k <;> simp_all
    simp [h, hn]

/-! ## Claim theorems: create, list, edit, delete -/

/-- C6: a create_assessment call whose payload has an empty section list
raises a 400 client error, and neither the rendering collaborator nor the
document-store insert is invoked. -/
theorem create_assessment_empty_questions_rejected
    (a : AssessmentIn) (gen_id paper now ins : String)
    (h : a.questions = []) :
    create_assessment a gen_id paper now ins =
      (.error ⟨400, "Assessment must contain at least one question"⟩,
        { rendered := false, inserted := none }) := by
  unfold create_assessment
  simp [h]

/-- Witness for C6 at a concrete empty-section payload. -/
theorem create_assessment_empty_questions_rejected_witness :
    ({ name := "quiz1", course := "math", start_date := "d1", end_date := "d2",
       total_time := 60, total_marks := 100, lessons := ["l1"],
       questions := [] } : AssessmentIn).questions = [] ∧
    create_assessment
      { name := "quiz1", course := "math", start_date := "d1", end_date := "d2",
        total_time := 60, total_marks := 100, lessons := ["l1"], questions := [] }
      "oid1" "paper" "now" "ins1" =
      (.error ⟨400, "Assessment must contain at least one question"⟩,
        { rendered := false, inserted := none }) :=
  ⟨rfl, create_assessment_empty_questions_rejected _ "oid1" "paper" "now" "ins1" rfl⟩

/-- C4: a list_assessments call whose filter object contains a field name
outside the allow-list raises a 400 before the aggregation pipeline is
built or run. -/
theorem list_assessments_invalid_filter_rejected
    (fs : Doc) (k : String) (v : Val) (agg : List Doc)
    (hk : (k, v) ∈ fs) (hbad : ¬ k ∈ valid_filters) :
    list_assessments (some fs) agg =
      (.error ⟨400, "Invalid filter name(s): " ++
          String.intercalate ", " (invalidFilterNames fs)⟩,
        { pipeline_built := false, aggregation_run := false }) := by
  have hfs : fs.isEmpty = false := by
    cases fs with
    | nil => simp at hk
    | cons a l => simp
  have hmem : k ∈ invalidFilterNames fs := by
    unfold invalidFilterNames
    refine List.mem_filter.mpr ⟨List.mem_map.mpr ⟨(k, v), hk, rfl⟩, ?_⟩
    simpa using hbad
  have hbadne : (invalidFilterNames fs).isEmpty = false := by
    cases hie : invalidFilterNames fs with
    | nil => rw [hie] at hmem; simp at hmem
    | cons a l => simp
  unfold list_assessments
  simp [hfs, hbadne]

/-- Witness for C4 at a concrete disallowed filter key. -/
theorem list_assessments_invalid_filter_rejected_witness :
    (("teacher", Val.str "x") ∈ ([("teacher", Val.str "x")] : Doc)) ∧
    ¬ "teacher" ∈ valid_filters ∧
    list_assessments (some [("teacher", Val.str "x")]) [] =
      (.error ⟨400, "Invalid filter name(s): " ++
          String.intercalate ", " (invalidFilterNames [("teacher", Val.str "x")])⟩,
        { pipeline_built := false, aggregation_run := false }) :=
  ⟨by decide, by decide,
    list_assessments_invalid_filter_rejected [("teacher", Val.str "x")]
      "teacher" (Val.str "x") [] (by decide) (by decide)⟩

/-- C8: edit_assessment performs the replace-update keyed by the submitted
identifier with the full rebuilt document, without any prior existence
check, and returns success with the submitted identifier for every
matched-count the document store reports — including zero. -/
theorem edit_assessment_no_existence_check
    (e : EditIn) (paper now : String) (matched : Nat) :
    edit_assessment e paper now matched =
      (.ok { status := "success", assessment_id := e.assessment_id },
        { query_id := e.assessment_id
          update_data := buildAssessmentDoc e.toAssessmentIn paper now }) := rfl

/-- C7: a delete_assessment call whose assessment delete-one removes zero
documents raises a 404, and no delete is issued against the grade-record
collection. -/
theorem delete_assessment_missing_404_no_grade_delete
    (aid course : String) (g : Except Unit Nat) :
    delete_assessment aid course 0 g =
      (.error ⟨404, "Assessment not found"⟩, none) := by
  unfold delete_assessment
  simp

/-- C9: deleting an existing assessment (delete-one count 1) with a
successful grade-record deletion of N documents issues the delete against
the matching {assessment identifier, course} query, returns success, and
reports exactly N removed grade records. -/
theorem delete_assessment_success_reports_grade_count
    (aid course : String) (n : Nat) :
    delete_assessment aid course 1 (.ok n) =
      (.ok { status := "success", message := delete_message n },
        some { assessment_id := aid, course_id := course }) := by
  unfold delete_assessment
  simp

/-- C2 counterexample: when the assessment document is deleted (count 1)
and the grade-record deletion raises, the handler still returns success
but the message reports the stale count 1 from the assessment deletion,
not 0 as the claim states. -/
theorem delete_assessment_failed_grade_delete_counterexample :
    (delete_assessment "a1" "c1" 1 (.error ())).1 =
      .ok { status := "success", message := delete_message 1 } ∧
    delete_message 1 ≠ delete_message 0 := by
  constructor
  · rfl
  · decide

/-- C2 amended: when the assessment deletion succeeds (nonzero count `n`,
which is 1 for delete-one) and the best-effort grade-record deletion
raises, the handler still returns success, and the count reported in the
message is the stale assessment-deletion count `n` — not 0. -/
theorem delete_assessment_failed_grade_delete_reports_stale_count
    (aid course : String) (n : Nat) (h : n ≠ 0) :
    delete_assessment aid course n (.error ()) =
      (.ok { status := "success", message := delete_message n },
        some { assessment_id := aid, course_id := course }) := by
  unfold delete_assessment
  simp [h]

/-- Witness for the amended C2 at a concrete deletion. -/
theorem delete_assessment_failed_grade_delete_reports_stale_count_witness :
    (1 : Nat) ≠ 0 ∧
    delete_assessment "a1" "c1" 1 (.error ()) =
      (.ok { status := "success", message := delete_message 1 },
        some { assessment_id := "a1", course_id := "c1" }) :=
  ⟨by decide,
    delete_assessment_failed_grade_delete_reports_stale_count "a1" "c1" 1 (by decide)⟩

/-! ## Lemmas about the student-grades merge -/

theorem placeholderEntry_status (aid c : String) (s : Doc) :
    dlookup (placeholderEntry aid c s) "status" = some .null := by
  unfold placeholderEntry
  rw [dlookup_pyDictSet, if_pos rfl]

theorem placeholderEntry_marks (aid c : String) (s : Doc) :
    dlookup (placeholderEntry aid c s) "marks" = some .null := by
  unfold placeholderEntry
  rw [dlookup_pyDictSet, if_neg (by decide), dlookup_pyDictSet, if_pos rfl]

theorem placeholderEntry_student_id (aid c : String) (s : Doc) :
    dlookup (placeholderEntry aid c s) "student_id" = dlookup s "student_id" := by
  unfold placeholderEntry
  have hb : dlookup [("assessment_id", Val.str aid), ("course_id", Val.str c)]
      "student_id" = none := rfl
  rw [dlookup_pyDictSet, if_neg (by decide : ¬ ("student_id" : String) = "status"),
    dlookup_pyDictSet, if_neg (by decide : ¬ ("student_id" : String) = "marks"),
    dlookup_pyUpdate, hb]
  exact Option.or_none

theorem placeholderEntry_assessment_id (aid c : String) (s : Doc)
    (h : dlookup s "assessment_id" = none) :
    dlookup (placeholderEntry aid c s) "assessment_id" = some (.str aid) := by
  unfold placeholderEntry
  rw [dlookup_pyDictSet, if_neg (by decide : ¬ ("assessment_id" : String) = "status"),
    dlookup_pyDictSet, if_neg (by decide : ¬ ("assessment_id" : String) = "marks"),
    dlookup_pyUpdate, h]
  rfl

theorem placeholderEntry_course_id (aid c : String) (s : Doc)
    (h : dlookup s "course_id" = none) :
    dlookup (placeholderEntry aid c s) "course_id" = some (.str c) := by
  unfold placeholderEntry
  rw [dlookup_pyDictSet, if_neg (by decide : ¬ ("course_id" : String) = "status"),
    dlookup_pyDictSet, if_neg (by decide : ¬ ("course_id" : String) = "marks"),
    dlookup_pyUpdate, h]
  rfl

theorem buildMappingAux_isOk (students : List Doc) :
    ∀ m : List (Val × Doc),
      (∀ s ∈ students, (dlookup s "student_id").isSome) →
      ∃ m2, buildMappingAux m students = .ok m2 := by
  induction students with
  | nil => intro m _; exact ⟨m, rfl⟩
  | cons s rest ih =>
    intro m hall
    obtain ⟨v, hv⟩ := Option.isSome_iff_exists.mp (hall s (List.mem_cons_self s rest))
    rw [buildMappingAux, hv]
    exact ih _ (fun t ht => hall t (List.mem_cons_of_mem s ht))

theorem buildMappingAux_ok (students : List Doc) :
    ∀ m : List (Val × Doc),
      (∀ s ∈ students, (dlookup s "student_id").isSome) →
      (idsOf students).Nodup →
      (∀ kv ∈ m, ¬ some kv.1 ∈ idsOf students) →
      buildMappingAux m students = .ok (m ++ rosterPairs students) := by
  induction students with
  | nil => intro m _ _ _; simp [buildMappingAux, rosterPairs]
  | cons s rest ih =>
    intro m hall hnd hdisj
    obtain ⟨v, hv⟩ := Option.isSome_iff_exists.mp (hall s (List.mem_cons_self s rest))
    have hids : idsOf (s :: rest) = some v :: idsOf rest := by
      simp [idsOf, hv]
    have hnotin : ¬ v ∈ m.map Prod.fst := by
      intro hvm
      obtain ⟨kv, hkv, hfst⟩ := List.mem_map.mp hvm
      exact hdisj kv hkv (by rw [hids, hfst]; exact List.mem_cons_self _ _)
    have hnd' : (idsOf rest).Nodup := by
      rw [hids] at hnd; exact hnd.of_cons
    have hvnotin : ¬ some v ∈ idsOf rest := by
      rw [hids] at hnd; exact (List.nodup_cons.mp hnd).1
    have hdisj' : ∀ kv ∈ m ++ [(v, s)], ¬ some kv.1 ∈ idsOf rest := by
      intro kv hkv
      rcases List.mem_append.mp hkv with h1 | h1
      · intro hc
        exact hdisj kv h1 (by rw [hids]; exact List.mem_cons_of_mem _ hc)
      · rcases List.mem_singleton.mp h1 with rfl
        exact hvnotin
    have hrp : rosterPairs (s :: rest) = (v, s) :: rosterPairs rest := by
      rw [rosterPairs, hv]
    rw [buildMappingAux]
    simp only [hv, mapSet, if_neg hnotin]
    rw [ih (m ++ [(v, s)]) (fun t ht => hall t (List.mem_cons_of_mem s ht)) hnd' hdisj',
      hrp, List.append_assoc]
    rfl

theorem buildMapping_ok (students : List Doc)
    (hall : ∀ s ∈ students, (dlookup s "student_id").isSome)
    (hnd : (idsOf students).Nodup) :
    buildMapping students = .ok (rosterPairs students) := by
  have := buildMappingAux_ok students [] hall hnd (by intro kv hkv; simp at hkv)
  simpa [buildMapping] using this

theorem mem_mapDel {k : Val} {m : List (Val × Doc)} {kv : Val × Doc} :
    kv ∈ mapDel k m ↔ kv ∈ m ∧ ¬ kv.1 = k := by
  induction m with
  | nil => simp [mapDel]
  | cons a rest ih =>
    by_cases h : a.1 = k
    · rw [mapDel, if_pos h, ih]
      constructor
      · rintro ⟨h1, h2⟩
        exact ⟨List.mem_cons_of_mem _ h1, h2⟩
      · rintro ⟨h1, h2⟩
        rcases List.mem_cons.mp h1 with rfl | h1
        · exact absurd h h2
        · exact ⟨h1, h2⟩
    · rw [mapDel, if_neg h]
      constructor
      · intro hm
        rcases List.mem_cons.mp hm with rfl | hm
        · exact ⟨List.mem_cons_self _ _, h⟩
        · rcases ih.mp hm with ⟨h1, h2⟩
          exact ⟨List.mem_cons_of_mem _ h1, h2⟩
      · rintro ⟨h1, h2⟩
        rcases List.mem_cons.mp h1 with rfl | h1
        · exact List.mem_cons_self _ _
        · exact List.mem_cons_of_mem _ (ih.mpr ⟨h1, h2⟩)

theorem mem_keys_mapDel {k v : Val} {m : List (Val × Doc)} :
    v ∈ (mapDel k m).map Prod.fst ↔ v ∈ m.map Prod.fst ∧ ¬ v = k := by
  constructor
  · intro h
    obtain ⟨kv, hkv, hfst⟩ := List.mem_map.mp h
    obtain ⟨h1, h2⟩ := mem_mapDel.mp hkv
    exact ⟨List.mem_map.mpr ⟨kv, h1, hfst⟩, by rw [← hfst]; exact h2⟩
  · rintro ⟨h1, h2⟩
    obtain ⟨kv, hkv, hfst⟩ := List.mem_map.mp h1
    exact List.mem_map.mpr ⟨kv, mem_mapDel.mpr ⟨hkv, by rw [hfst]; exact h2⟩, hfst⟩

theorem mapKeep_nil_ids (m : List (Val × Doc)) : mapKeep [] m = m := by
  induction m with
  | nil => rfl
  | cons kv rest ih => rw [mapKeep, if_neg (by simp), ih]

theorem mapKeep_mapDel (v : Val) (ids : List (Option Val)) (m : List (Val × Doc)) :
    mapKeep ids (mapDel v m) = mapKeep (some v :: ids) m := by
  induction m with
  | nil => rfl
  | cons kv rest ih =>
    by_cases h : kv.1 = v
    · rw [mapDel, if_pos h, ih, mapKeep,
        if_pos (by rw [h]; exact List.mem_cons_self _ _)]
    · rw [mapDel, if_neg h]
      by_cases h2 : some kv.1 ∈ ids
      · rw [mapKeep, if_pos h2, ih, mapKeep, if_pos (List.mem_cons_of_mem _ h2)]
      · rw [mapKeep, if_neg h2, ih, mapKeep,
          if_neg (by
            intro hc
            rcases List.mem_cons.mp hc with he | he
            · exact h (Option.some.inj he)
            · exact h2 he)]

theorem processGrades_ok (grades : List Doc) :
    ∀ mapping : List (Val × Doc),
      (∀ g ∈ grades, (dlookup g "_id").isSome) →
      (∀ g ∈ grades, (dlookup g "student_id").isSome) →
      (idsOf grades).Nodup →
      (∀ g ∈ grades, ∀ v, dlookup g "student_id" = some v → v ∈ mapping.map Prod.fst) →
      processGrades mapping grades =
        .ok (grades.map (dictPop "_id"), mapKeep (idsOf grades) mapping) := by
  induction grades with
  | nil =>
    intro mapping _ _ _ _
    rw [processGrades]
    simp [idsOf, mapKeep_nil_ids]
  | cons g gs ih =>
    intro mapping h1 h2 hnd h4
    obtain ⟨w, hw⟩ := Option.isSome_iff_exists.mp (h1 g (List.mem_cons_self g gs))
    obtain ⟨v, hv⟩ := Option.isSome_iff_exists.mp (h2 g (List.mem_cons_self g gs))
    have hids : idsOf (g :: gs) = some v :: idsOf gs := by
      simp [idsOf, hv]
    have hpop : dlookup (dictPop "_id" g) "student_id" = some v := by
      rw [dlookup_dictPop, if_neg (by decide : ¬ ("student_id" : String) = "_id"), hv]
    have hvmem : v ∈ mapping.map Prod.fst :=
      h4 g (List.mem_cons_self g gs) v hv
    have hnd' : (idsOf gs).Nodup := by
      rw [hids] at hnd; exact hnd.of_cons
    have hvnotin : ¬ some v ∈ idsOf gs := by
      rw [hids] at hnd; exact (List.nodup_cons.mp hnd).1
    have h4' : ∀ t ∈ gs, ∀ v2, dlookup t "student_id" = some v2 →
        v2 ∈ (mapDel v mapping).map Prod.fst := by
      intro t ht v2 hv2
      have hv2mem := h4 t (List.mem_cons_of_mem g ht) v2 hv2
      have hne : ¬ v2 = v := by
        intro he
        subst he
        exact hvnotin (by rw [← hv2]; exact List.mem_map.mpr ⟨t, ht, rfl⟩)
      exact mem_keys_mapDel.mpr ⟨hv2mem, hne⟩
    have hrec := ih (mapDel v mapping)
      (fun t ht => h1 t (List.mem_cons_of_mem g ht))
      (fun t ht => h2 t (List.mem_cons_of_mem g ht))
      hnd' h4'
    rw [processGrades]
    simp only [hw, hpop, if_pos hvmem, hrec]
    rw [mapKeep_mapDel, ← hids, List.map_cons]

theorem ungraded_sublist (gids : List (Option Val)) (l : List Doc) :
    (ungraded gids l).Sublist l := by
  induction l with
  | nil => exact List.Sublist.refl _
  | cons s rest ih =>
    rw [ungraded]
    by_cases h : dlookup s "student_id" ∈ gids
    · rw [if_pos h]; exact ih.cons _
    · rw [if_neg h]; exact ih.cons₂ _

theorem mem_ungraded {gids : List (Option Val)} {l : List Doc} {s : Doc} :
    s ∈ ungraded gids l ↔ s ∈ l ∧ ¬ dlookup s "student_id" ∈ gids := by
  induction l with
  | nil => simp [ungraded]
  | cons a rest ih =>
    rw [ungraded]
    by_cases h : dlookup a "student_id" ∈ gids
    · rw [if_pos h, ih]
      constructor
      · rintro ⟨h1, h2⟩
        exact ⟨List.mem_cons_of_mem _ h1, h2⟩
      · rintro ⟨h1, h2⟩
        rcases List.mem_cons.mp h1 with rfl | h1
        · exact absurd h h2
        · exact ⟨h1, h2⟩
    · rw [if_neg h]
      constructor
      · intro hm
        rcases List.mem_cons.mp hm with rfl | hm
        · exact ⟨List.mem_cons_self _ _, h⟩
        · rcases ih.mp hm with ⟨h1, h2⟩
          exact ⟨List.mem_cons_of_mem _ h1, h2⟩
      · rintro ⟨h1, h2⟩
        rcases List.mem_cons.mp h1 with rfl | h1
        · exact List.mem_cons_self _ _
        · exact List.mem_cons_of_mem _ (ih.mpr ⟨h1, h2⟩)

theorem mapKeep_rosterPairs (gids : List (Option Val)) (l : List Doc)
    (hall : ∀ s ∈ l, (dlookup s "student_id").isSome) :
    mapKeep gids (rosterPairs l) = rosterPairs (ungraded gids l) := by
  induction l with
  | nil => rfl
  | cons s rest ih =>
    obtain ⟨v, hv⟩ := Option.isSome_iff_exists.mp (hall s (List.mem_cons_self s rest))
    have ih' := ih (fun t ht => hall t (List.mem_cons_of_mem s ht))
    rw [rosterPairs, hv, ungraded]
    by_cases h : dlookup s "student_id" ∈ gids
    · rw [mapKeep, if_pos (by rw [← hv]; exact h), if_pos h, ih']
    · rw [mapKeep, if_neg (by rw [← hv]; exact h), if_neg h, rosterPairs, hv, ih']

theorem rosterPairs_map_snd {β : Type} (f : Doc → β) (l : List Doc)
    (hall : ∀ s ∈ l, (dlookup s "student_id").isSome) :
    (rosterPairs l).map (fun kv => f kv.2) = l.map f := by
  induction l with
  | nil => rfl
  | cons s rest ih =>
    obtain ⟨v, hv⟩ := Option.isSome_iff_exists.mp (hall s (List.mem_cons_self s rest))
    rw [rosterPairs, hv, List.map_cons, List.map_cons,
      ih (fun t ht => hall t (List.mem_cons_of_mem s ht))]

theorem mem_keys_rosterPairs {v : Val} {l : List Doc} :
    v ∈ (rosterPairs l).map Prod.fst ↔ some v ∈ idsOf l := by
  induction l with
  | nil => simp [rosterPairs, idsOf]
  | cons s rest ih =>
    rw [rosterPairs]
    cases h : dlookup s "student_id" with
    | some w => simp [h, idsOf, ih]
    | none => simp [h, idsOf, ih]

theorem idsOf_map_placeholder (aid c : String) (l : List Doc) :
    idsOf (l.map (placeholderEntry aid c)) = idsOf l := by
  unfold idsOf
  rw [List.map_map]
  exact List.map_congr_left (fun s _ => placeholderEntry_student_id aid c s)

theorem idsOf_map_dictPop (l : List Doc) :
    idsOf (l.map (dictPop "_id")) = idsOf l := by
  unfold idsOf
  rw [List.map_map]
  refine List.map_congr_left (fun g _ => ?_)
  simp only [Function.comp_apply]
  rw [dlookup_dictPop, if_neg (by decide)]

theorem idsOf_append (l1 l2 : List Doc) :
    idsOf (l1 ++ l2) = idsOf l1 ++ idsOf l2 :=
  List.map_append _ _ _

theorem mem_idsOf {x : Option Val} {l : List Doc} :
    x ∈ idsOf l ↔ ∃ s, s ∈ l ∧ dlookup s "student_id" = x := by
  unfold idsOf
  simp [List.mem_map]

theorem idsOf_sublist {l1 l2 : List Doc} (h : l1.Sublist l2) :
    (idsOf l1).Sublist (idsOf l2) := by
  unfold idsOf
  exact h.map _

theorem idsOf_length (l : List Doc) : (idsOf l).length = l.length := by
  unfold idsOf
  exact List.length_map _ _

/-! ## Claim theorems: student grades -/

/-- C10: when the grade-record query returns no records, the handler
returns success with exactly one placeholder entry per roster student, in
roster order, each carrying the assessment and course identifiers and
null marks and null status. -/
theorem get_assessment_student_grades_empty_placeholders
    (aid course : String) (roster : List Doc)
    (hr1 : ∀ s ∈ roster, (dlookup s "student_id").isSome)
    (habs : ∀ s ∈ roster,
      dlookup s "assessment_id" = none ∧ dlookup s "course_id" = none) :
    get_assessment_student_grades aid course roster [] =
      .ok { status := "success", data := roster.map (placeholderEntry aid course) } ∧
    (roster.map (placeholderEntry aid course)).length = roster.length ∧
    idsOf (roster.map (placeholderEntry aid course)) = idsOf roster ∧
    ∀ s ∈ roster,
      dlookup (placeholderEntry aid course s) "assessment_id" = some (.str aid) ∧
      dlookup (placeholderEntry aid course s) "course_id" = some (.str course) ∧
      dlookup (placeholderEntry aid course s) "marks" = some .null ∧
      dlookup (placeholderEntry aid course s) "status" = some .null := by
  obtain ⟨m2, hm2⟩ := buildMappingAux_isOk roster [] hr1
  have hb : buildMapping roster = .ok m2 := hm2
  refine ⟨?_, by simp, idsOf_map_placeholder aid course roster, ?_⟩
  · unfold get_assessment_student_grades grades_body
    rw [hb]
    rfl
  · intro s hs
    exact ⟨placeholderEntry_assessment_id _ _ _ (habs s hs).1,
      placeholderEntry_course_id _ _ _ (habs s hs).2,
      placeholderEntry_marks _ _ _, placeholderEntry_status _ _ _⟩

/-- Witness for C10 on a concrete two-student roster. -/
theorem get_assessment_student_grades_empty_placeholders_witness :
    (∀ s ∈ ([[("student_id", Val.str "s1")], [("student_id", Val.str "s2")]] :
        List Doc), (dlookup s "student_id").isSome) ∧
    (∀ s ∈ ([[("student_id", Val.str "s1")], [("student_id", Val.str "s2")]] :
        List Doc),
      dlookup s "assessment_id" = none ∧ dlookup s "course_id" = none) ∧
    (get_assessment_student_grades "a1" "c1"
        [[("student_id", Val.str "s1")], [("student_id", Val.str "s2")]] [] =
      .ok { status := "success"
            data := ([[("student_id", Val.str "s1")],
              [("student_id", Val.str "s2")]] : List Doc).map
                (placeholderEntry "a1" "c1") } ∧
    (([[("student_id", Val.str "s1")], [("student_id", Val.str "s2")]] :
        List Doc).map (placeholderEntry "a1" "c1")).length =
      ([[("student_id", Val.str "s1")], [("student_id", Val.str "s2")]] :
        List Doc).length ∧
    idsOf (([[("student_id", Val.str "s1")], [("student_id", Val.str "s2")]] :
        List Doc).map (placeholderEntry "a1" "c1")) =
      idsOf [[("student_id", Val.str "s1")], [("student_id", Val.str "s2")]] ∧
    ∀ s ∈ ([[("student_id", Val.str "s1")], [("student_id", Val.str "s2")]] :
        List Doc),
      dlookup (placeholderEntry "a1" "c1" s) "assessment_id" = some (.str "a1") ∧
      dlookup (placeholderEntry "a1" "c1" s) "course_id" = some (.str "c1") ∧
      dlookup (placeholderEntry "a1" "c1" s) "marks" = some .null ∧
      dlookup (placeholderEntry "a1" "c1" s) "status" = some .null) :=
  ⟨by decide, by decide,
    get_assessment_student_grades_empty_placeholders "a1" "c1"
      [[("student_id", Val.str "s1")], [("student_id", Val.str "s2")]]
      (by decide) (by decide)⟩

/-- C1: with at least one matching grade record (and a well-formed store:
distinct roster ids, distinct grade-record ids all belonging to the
roster), the returned data list has exactly one entry per roster student:
the stored record with `_id` removed for each graded student, a
null-marks/null-status placeholder for each ungraded roster student; its
student ids are a permutation of the roster's ids (no duplicates) and its
length equals the roster size. -/
theorem get_assessment_student_grades_partial_merge
    (aid course : String) (roster grades : List Doc)
    (hr1 : ∀ s ∈ roster, (dlookup s "student_id").isSome)
    (hr2 : (idsOf roster).Nodup)
    (hg0 : grades ≠ [])
    (hg1 : ∀ g ∈ grades, (dlookup g "_id").isSome)
    (hg2 : ∀ g ∈ grades, (dlookup g "student_id").isSome)
    (hg3 : (idsOf grades).Nodup)
    (hg4 : ∀ g ∈ grades, dlookup g "student_id" ∈ idsOf roster) :
    ∃ data : List Doc,
      get_assessment_student_grades aid course roster grades =
        .ok { status := "success", data := data } ∧
      data = grades.map (dictPop "_id") ++
        (ungraded (idsOf grades) roster).map (placeholderEntry aid course) ∧
      data.length = roster.length ∧
      (idsOf data).Nodup ∧
      (idsOf data).Perm (idsOf roster) ∧
      (∀ g ∈ grades, dictPop "_id" g ∈ data ∧
        dlookup (dictPop "_id" g) "student_id" = dlookup g "student_id" ∧
        dlookup (dictPop "_id" g) "_id" = none) ∧
      (∀ s ∈ roster, ¬ dlookup s "student_id" ∈ idsOf grades →
        placeholderEntry aid course s ∈ data ∧
        dlookup (placeholderEntry aid course s) "marks" = some .null ∧
        dlookup (placeholderEntry aid course s) "status" = some .null) := by
  have hrun : get_assessment_student_grades aid course roster grades =
      .ok { status := "success"
            data := grades.map (dictPop "_id") ++
              (ungraded (idsOf grades) roster).map (placeholderEntry aid course) } := by
    have hb : buildMapping roster = .ok (rosterPairs roster) :=
      buildMapping_ok roster hr1 hr2
    have hkeys : ∀ g ∈ grades, ∀ v, dlookup g "student_id" = some v →
        v ∈ (rosterPairs roster).map Prod.fst := by
      intro g hg v hv
      exact mem_keys_rosterPairs.mpr (hv ▸ hg4 g hg)
    have hpg := processGrades_ok grades (rosterPairs roster) hg1 hg2 hg3 hkeys
    have hmk : mapKeep (idsOf grades) (rosterPairs roster) =
        rosterPairs (ungraded (idsOf grades) roster) :=
      mapKeep_rosterPairs _ _ hr1
    have hsnd : (rosterPairs (ungraded (idsOf grades) roster)).map
        (fun kv => placeholderEntry aid course kv.2) =
        (ungraded (idsOf grades) roster).map (placeholderEntry aid course) :=
      rosterPairs_map_snd _ _
        (fun s hs => hr1 s (mem_ungraded.mp hs).1)
    have hempty : grades.isEmpty = false := by
      cases grades with
      | nil => exact absurd rfl hg0
      | cons a l => rfl
    unfold get_assessment_student_grades grades_body
    rw [hb]
    simp only [hempty, Bool.false_eq_true, if_false, hpg, hmk, hsnd]
    rfl
  have hidsdata : idsOf (grades.map (dictPop "_id") ++
      (ungraded (idsOf grades) roster).map (placeholderEntry aid course)) =
      idsOf grades ++ idsOf (ungraded (idsOf grades) roster) := by
    rw [idsOf_append, idsOf_map_dictPop, idsOf_map_placeholder]
  have hug_nodup : (idsOf (ungraded (idsOf grades) roster)).Nodup :=
    List.Nodup.sublist (idsOf_sublist (ungraded_sublist _ _)) hr2
  have hdisj : (idsOf grades).Disjoint (idsOf (ungraded (idsOf grades) roster)) := by
    intro x hx1 hx2
    obtain ⟨s, hs, hsl⟩ := mem_idsOf.mp hx2
    exact (mem_ungraded.mp hs).2 (hsl ▸ hx1)
  have hnodup : (idsOf (grades.map (dictPop "_id") ++
      (ungraded (idsOf grades) roster).map (placeholderEntry aid course))).Nodup := by
    rw [hidsdata]
    exact List.nodup_append.mpr ⟨hg3, hug_nodup, hdisj⟩
  have hperm : (idsOf (grades.map (dictPop "_id") ++
      (ungraded (idsOf grades) roster).map
        (placeholderEntry aid course))).Perm (idsOf roster) := by
    refine (List.perm_ext_iff_of_nodup hnodup hr2).mpr ?_
    intro x
    rw [hidsdata]
    constructor
    · intro hx
      rcases List.mem_append.mp hx with h | h
      · obtain ⟨g, hg, hgl⟩ := mem_idsOf.mp h
        exact hgl ▸ hg4 g hg
      · obtain ⟨s, hs, hsl⟩ := mem_idsOf.mp h
        exact mem_idsOf.mpr ⟨s, (mem_ungraded.mp hs).1, hsl⟩
    · intro hx
      obtain ⟨s, hs, hsl⟩ := mem_idsOf.mp hx
      by_cases hgmem : x ∈ idsOf grades
      · exact List.mem_append.mpr (Or.inl hgmem)
      · refine List.mem_append.mpr
          (Or.inr (mem_idsOf.mpr ⟨s, mem_ungraded.mpr ⟨hs, ?_⟩, hsl⟩))
        rw [hsl]
        exact hgmem
  have hlen : (grades.map (dictPop "_id") ++
      (ungraded (idsOf grades) roster).map
        (placeholderEntry aid course)).length = roster.length := by
    have h := hperm.length_eq
    rw [idsOf_length, idsOf_length] at h
    exact h
  refine ⟨grades.map (dictPop "_id") ++
    (ungraded (idsOf grades) roster).map (placeholderEntry aid course),
    hrun, rfl, hlen, hnodup, hperm, ?_, ?_⟩
  · intro g hg
    refine ⟨List.mem_append.mpr (Or.inl (List.mem_map.mpr ⟨g, hg, rfl⟩)), ?_, ?_⟩
    · rw [dlookup_dictPop, if_neg (by decide : ¬ ("student_id" : String) = "_id")]
    · rw [dlookup_dictPop, if_pos rfl]
  · intro s hs hns
    exact ⟨List.mem_append.mpr
        (Or.inr (List.mem_map.mpr ⟨s, mem_ungraded.mpr ⟨hs, hns⟩, rfl⟩)),
      placeholderEntry_marks _ _ _, placeholderEntry_status _ _ _⟩

/-- Witness for C1: one graded student out of a two-student roster. -/
theorem get_assessment_student_grades_partial_merge_witness :
    (∀ s ∈ rosterW, (dlookup s "student_id").isSome) ∧
    (idsOf rosterW).Nodup ∧
    gradesW ≠ [] ∧
    (∀ g ∈ gradesW, (dlookup g "_id").isSome) ∧
    (∀ g ∈ gradesW, (dlookup g "student_id").isSome) ∧
    (idsOf gradesW).Nodup ∧
    (∀ g ∈ gradesW, dlookup g "student_id" ∈ idsOf rosterW) ∧
    (∃ data : List Doc,
      get_assessment_student_grades "a1" "c1" rosterW gradesW =
        .ok { status := "success", data := data } ∧
      data = gradesW.map (dictPop "_id") ++
        (ungraded (idsOf gradesW) rosterW).map (placeholderEntry "a1" "c1") ∧
      data.length = rosterW.length ∧
      (idsOf data).Nodup ∧
      (idsOf data).Perm (idsOf rosterW) ∧
      (∀ g ∈ gradesW, dictPop "_id" g ∈ data ∧
        dlookup (dictPop "_id" g) "student_id" = dlookup g "student_id" ∧
        dlookup (dictPop "_id" g) "_id" = none) ∧
      (∀ s ∈ rosterW, ¬ dlookup s "student_id" ∈ idsOf gradesW →
        placeholderEntry "a1" "c1" s ∈ data ∧
        dlookup (placeholderEntry "a1" "c1" s) "marks" = some .null ∧
        dlookup (placeholderEntry "a1" "c1" s) "status" = some .null)) :=
  ⟨by decide, by decide, by decide, by decide, by decide, by decide, by decide,
    get_assessment_student_grades_partial_merge "a1" "c1" rosterW gradesW
      (by decide) (by decide) (by decide) (by decide) (by decide) (by decide)
      (by decide)⟩

/-! ## Lemmas about the details-fetch merge -/

theorem exceptMap_isOk {α β : Type} {f : α → Except PyExc β} {l : List α}
    (h : ∀ x ∈ l, ∃ y, f x = .ok y) : ∃ ys, exceptMap f l = .ok ys := by
  induction l with
  | nil => exact ⟨[], rfl⟩
  | cons x xs ih =>
    obtain ⟨y, hy⟩ := h x (List.mem_cons_self x xs)
    obtain ⟨ys, hys⟩ := ih (fun t ht => h t (List.mem_cons_of_mem x ht))
    refine ⟨y :: ys, ?_⟩
    rw [exceptMap]
    simp only [hy, hys]

theorem exceptMap_ok_of_mem {α β : Type} {f : α → Except PyExc β} {l : List α}
    {ys : List β} (h : exceptMap f l = .ok ys) {x : α} (hx : x ∈ l) :
    ∃ y, f x = .ok y := by
  induction l generalizing ys with
  | nil => simp at hx
  | cons a xs ih =>
    rw [exceptMap] at h
    cases ha : f a with
    | error e => rw [ha] at h; simp at h
    | ok y =>
      rw [ha] at h
      cases hxs : exceptMap f xs with
      | error e => rw [hxs] at h; simp at h
      | ok ys2 =>
        rcases List.mem_cons.mp hx with rfl | hx2
        · exact ⟨y, ha⟩
        · exact ih hxs hx2

theorem exceptMap_error_keyError {α β : Type} {f : α → Except PyExc β}
    {l : List α} {e : PyExc} (h : exceptMap f l = .error e)
    (hf : ∀ x ∈ l, ∀ e2, f x = .error e2 → ∃ k, e2 = .keyError k) :
    ∃ k, e = .keyError k := by
  induction l generalizing e with
  | nil => simp [exceptMap] at h
  | cons a xs ih =>
    rw [exceptMap] at h
    cases ha : f a with
    | error e2 =>
      rw [ha] at h
      simp at h
      exact h ▸ hf a (List.mem_cons_self a xs) e2 ha
    | ok y =>
      rw [ha] at h
      cases hxs : exceptMap f xs with
      | error e3 =>
        rw [hxs] at h
        simp at h
        exact h ▸ ih hxs (fun t ht => hf t (List.mem_cons_of_mem a ht))
      | ok ys2 => rw [hxs] at h; simp at h

theorem exceptMap_ok_get {α β : Type} {f : α → Except PyExc β} {l : List α}
    {ys : List β} (h : exceptMap f l = .ok ys) :
    ys.length = l.length ∧
    ∀ i (hi : i < l.length) (hi2 : i < ys.length),
      f (l.get ⟨i, hi⟩) = .ok (ys.get ⟨i, hi2⟩) := by
  induction l generalizing ys with
  | nil =>
    rw [exceptMap] at h
    simp at h
    subst h
    exact ⟨rfl, fun i hi => by simp at hi⟩
  | cons a xs ih =>
    rw [exceptMap] at h
    cases ha : f a with
    | error e => rw [ha] at h; simp at h
    | ok y =>
      rw [ha] at h
      cases hxs : exceptMap f xs with
      | error e => rw [hxs] at h; simp at h
      | ok ys2 =>
        rw [hxs] at h
        simp at h
        subst h
        obtain ⟨hlen, hget⟩ := ih hxs
        refine ⟨by simp [hlen], ?_⟩
        intro i hi hi2
        cases i with
        | zero => exact ha
        | succ n =>
          exact hget n (by simpa using hi) (by simpa using hi2)

theorem mergeStub_error_keyError {qmap : List (String × Doc)} {stub : Doc}
    {e : PyExc} (h : mergeStub qmap stub = .error e) : ∃ k, e = .keyError k := by
  unfold mergeStub at h
  split at h
  · simp at h; exact ⟨_, h.symm⟩
  · split at h
    · simp at h; exact ⟨_, h.symm⟩
    · split at h
      · simp at h; exact ⟨_, h.symm⟩
      · simp at h

theorem mergeSection_ok_inv {qmap : List (String × Doc)} {sec sec2 : SectionDoc}
    (h : mergeSection qmap sec = .ok sec2) :
    ∃ qs, exceptMap (mergeStub qmap) sec.questions = .ok qs ∧
      sec2 = { meta := sec.meta, questions := qs } := by
  unfold mergeSection at h
  cases hm : exceptMap (mergeStub qmap) sec.questions with
  | error e => rw [hm] at h; simp at h
  | ok qs =>
    rw [hm] at h
    simp at h
    exact ⟨qs, rfl, h.symm⟩

theorem mergeSection_error_keyError {qmap : List (String × Doc)} {sec : SectionDoc}
    {e : PyExc} (h : mergeSection qmap sec = .error e) : ∃ k, e = .keyError k := by
  unfold mergeSection at h
  cases hm : exceptMap (mergeStub qmap) sec.questions with
  | error e2 =>
    rw [hm] at h
    simp at h
    exact h ▸ exceptMap_error_keyError hm (fun _ _ _ he => mergeStub_error_keyError he)
  | ok qs => rw [hm] at h; simp at h

theorem mergeSections_error_keyError {qmap : List (String × Doc)}
    {secs : List SectionDoc} {e : PyExc}
    (h : mergeSections qmap secs = .error e) : ∃ k, e = .keyError k :=
  exceptMap_error_keyError h (fun _ _ _ he => mergeSection_error_keyError he)

theorem mergeStub_ok_inv {qmap : List (String × Doc)} {stub merged : Doc}
    (h : mergeStub qmap stub = .ok merged) :
    ∃ s q m, dlookup stub "question_id" = some (.str s) ∧
      lookupStr qmap s = some q ∧
      dlookup stub "marks" = some m ∧
      merged = pyDictSet (pyUpdate stub q) "marks" m := by
  unfold mergeStub at h
  split at h
  next heq1 => simp at h
  next qv heq1 =>
    split at h
    next heq2 => simp at h
    next qdoc heq2 =>
      split at h
      next heq3 => simp at h
      next m heq3 =>
        simp at h
        cases qv with
        | str s =>
          exact ⟨s, qdoc, m, heq1, by simpa [qresolve] using heq2, heq3, h.symm⟩
        | null => simp [qresolve] at heq2
        | int n => simp [qresolve] at heq2

theorem lookupStr_mem {m : List (String × Doc)} {s : String} {q : Doc}
    (h : lookupStr m s = some q) : (s, q) ∈ m := by
  induction m with
  | nil => simp [lookupStr] at h
  | cons kv rest ih =>
    rw [lookupStr] at h
    by_cases hk : kv.1 = s
    · rw [if_pos hk] at h
      have he : (s, q) = kv := by
        cases kv
        simp at hk h ⊢
        exact ⟨hk.symm, h.symm⟩
      rw [he]
      exact List.mem_cons_self _ _
    · rw [if_neg hk] at h
      exact List.mem_cons_of_mem _ (ih h)

theorem mem_strMapSet {m : List (String × Doc)} {k : String} {d : Doc}
    {kv : String × Doc} (h : kv ∈ strMapSet m k d) : kv ∈ m ∨ kv = (k, d) := by
  unfold strMapSet at h
  by_cases hc : k ∈ m.map Prod.fst
  · rw [if_pos hc] at h
    obtain ⟨kv0, hkv0, hf⟩ := List.mem_map.mp h
    by_cases he : kv0.1 = k
    · rw [if_pos he] at hf
      exact Or.inr hf.symm
    · rw [if_neg he] at hf
      exact Or.inl (hf ▸ hkv0)
  · rw [if_neg hc] at h
    rcases List.mem_append.mp h with h1 | h1
    · exact Or.inl h1
    · exact Or.inr (List.mem_singleton.mp h1)

theorem buildQMapAux_spec (qdata : List Doc) :
    ∀ m qmap, buildQMapAux m qdata = .ok qmap →
      ∀ s q, (s, q) ∈ qmap →
        (s, q) ∈ m ∨ ∃ lib ∈ qdata, ∃ w, dlookup lib "_id" = some w ∧
          pyStr w = s ∧ q = transformLib lib w := by
  induction qdata with
  | nil =>
    intro m qmap h s q hm
    rw [buildQMapAux] at h
    simp at h
    exact Or.inl (h ▸ hm)
  | cons lib rest ih =>
    intro m qmap h s q hm
    rw [buildQMapAux] at h
    cases hw : dlookup lib "_id" with
    | none => rw [hw] at h; simp at h
    | some w =>
      rw [hw] at h
      rcases ih _ _ h s q hm with h1 | h1
      · rcases mem_strMapSet h1 with h2 | h2
        · exact Or.inl h2
        · simp at h2
          exact Or.inr ⟨lib, List.mem_cons_self _ _, w, hw, h2.1.symm, h2.2⟩
      · obtain ⟨lib2, hlib2, w2, hw2, hs2, hq2⟩ := h1
        exact Or.inr ⟨lib2, List.mem_cons_of_mem _ hlib2, w2, hw2, hs2, hq2⟩

theorem buildQMap_lookup_spec {qdata : List Doc} {qmap : List (String × Doc)}
    {s : String} {q : Doc} (h : buildQMap qdata = .ok qmap)
    (hl : lookupStr qmap s = some q) :
    ∃ lib ∈ qdata, ∃ w, dlookup lib "_id" = some w ∧
      pyStr w = s ∧ q = transformLib lib w := by
  rcases buildQMapAux_spec qdata [] qmap h s q (lookupStr_mem hl) with h1 | h1
  · simp at h1
  · exact h1

theorem dlookup_transformLib (lib : Doc) (w : Val) (k : String) :
    dlookup (transformLib lib w) k =
      if k = "id" then some (.str (pyStr w))
      else if k = "_id" then none else dlookup lib k := by
  unfold transformLib
  rw [dlookup_pyDictSet]
  by_cases h1 : k = "id"
  · simp [h1]
  · rw [if_neg h1, if_neg h1, dlookup_dictPop]

theorem handlerBoundary_ok {α : Type} {detail : String} {r : Except PyExc α}
    {x : α} (h : handlerBoundary detail r = .ok x) : r = .ok x := by
  cases r with
  | ok y => simpa [handlerBoundary] using h
  | error e =>
    cases e with
    | http e2 => simp [handlerBoundary] at h
    | keyError k => simp [handlerBoundary] at h

theorem exceptMap_ok_getElem {α β : Type} {f : α → Except PyExc β} {l : List α}
    {ys : List β} (h : exceptMap f l = .ok ys) {i : Nat} {x : α}
    (hx : l[i]? = some x) : ∃ y, ys[i]? = some y ∧ f x = .ok y := by
  induction l generalizing ys i with
  | nil => simp at hx
  | cons a xs ih =>
    rw [exceptMap] at h
    cases ha : f a with
    | error e => rw [ha] at h; simp at h
    | ok y =>
      rw [ha] at h
      cases hxs : exceptMap f xs with
      | error e => rw [hxs] at h; simp at h
      | ok ys2 =>
        rw [hxs] at h
        simp at h
        subst h
        cases i with
        | zero =>
          simp at hx
          subst hx
          exact ⟨y, by simp, ha⟩
        | succ n =>
          simp at hx
          obtain ⟨y2, hy2, hfy2⟩ := ih hxs hx
          exact ⟨y2, by simpa using hy2, hfy2⟩

theorem collectQids_isOk {secs : List SectionDoc}
    (h : ∀ sec ∈ secs, ∀ stub ∈ sec.questions,
      (dlookup stub "question_id").isSome) :
    ∃ qids, collectQids secs = .ok qids := by
  have hsec : ∀ sec ∈ secs, ∃ ys, exceptMap stubQid sec.questions = .ok ys := by
    intro sec hs
    refine exceptMap_isOk (fun stub hstub => ?_)
    obtain ⟨v, hv⟩ := Option.isSome_iff_exists.mp (h sec hs stub hstub)
    refine ⟨v, ?_⟩
    unfold stubQid
    rw [hv]
  obtain ⟨xss, hxss⟩ := exceptMap_isOk hsec
  refine ⟨xss.flatten, ?_⟩
  unfold collectQids
  rw [hxss]

theorem details_body_ok_inv {a : AssessmentData} {url : String} {qdata : List Doc}
    {resp : DetailsResp} (h : details_body (some a) url qdata = .ok resp) :
    ∃ qmap secs, buildQMap qdata = .ok qmap ∧
      mergeSections qmap a.sections = .ok secs ∧
      resp.data.sections = secs := by
  simp only [details_body] at h
  split at h
  · simp at h
  · split at h
    · simp at h
    · split at h
      · simp at h
      · split at h
        · simp at h
        · split at h
          · simp at h
          · split at h
            · simp at h
            · next secs heq =>
              simp at h
              refine ⟨_, secs, ?_, heq, by rw [← h]⟩
              assumption

/-! ## Claim theorems: details fetch -/

/-- C3: every question in a successfully returned assessment is the
stub merged with its library document: on every field the merged question
and the library document share (other than marks, and given the library
document carries no extra toplevel id field and the stub no `_id`), the
merged value is the library value, while marks keeps the stub's original
value. -/
theorem get_assessment_details_merge_uses_library_fields
    (a : AssessmentData) (url : String) (qdata : List Doc) (resp : DetailsResp)
    (sec : SectionDoc) (stub : Doc) (i j : Nat)
    (hok : get_assessment_details (some a) url qdata = .ok resp)
    (hlib : ∀ q ∈ qdata, dlookup q "id" = none)
    (hsec : a.sections[i]? = some sec)
    (hstub : sec.questions[j]? = some stub)
    (hnoid : dlookup stub "_id" = none) :
    ∃ sec2 merged, resp.data.sections[i]? = some sec2 ∧
      sec2.questions[j]? = some merged ∧
      sec2.meta = sec.meta ∧
      ∃ lib, lib ∈ qdata ∧ ∃ w, dlookup lib "_id" = some w ∧
        dlookup stub "question_id" = some (.str (pyStr w)) ∧
        (∀ k2, ¬ k2 = "marks" → (dlookup merged k2).isSome →
          (dlookup lib k2).isSome → dlookup merged k2 = dlookup lib k2) ∧
        dlookup merged "marks" = dlookup stub "marks" := by
  unfold get_assessment_details at hok
  have hbody := handlerBoundary_ok hok
  obtain ⟨qmap, secs, hqm, hms, hsecs⟩ := details_body_ok_inv hbody
  unfold mergeSections at hms
  obtain ⟨sec2, hsec2, hsecok⟩ := exceptMap_ok_getElem hms hsec
  obtain ⟨qs, hqs, hsec2eq⟩ := mergeSection_ok_inv hsecok
  obtain ⟨merged, hmergedget, hstubok⟩ := exceptMap_ok_getElem hqs hstub
  obtain ⟨s, q, m, hqid, hls, hmarks, hmerged⟩ := mergeStub_ok_inv hstubok
  obtain ⟨lib, hlibmem, w, hw, hpys, hq⟩ := buildQMap_lookup_spec hqm hls
  refine ⟨sec2, merged, by rw [hsecs]; exact hsec2, ?_, ?_, lib, hlibmem, w, hw,
    ?_, ?_, ?_⟩
  · rw [hsec2eq]
    exact hmergedget
  · rw [hsec2eq]
  · rw [hqid, hpys]
  · intro k2 hk2 hmer hlib2
    subst hmerged
    subst hq
    rw [dlookup_pyDictSet, if_neg hk2] at hmer ⊢
    rw [dlookup_pyUpdate] at hmer ⊢
    by_cases hid2 : k2 = "id"
    · rw [hid2, hlib lib hlibmem] at hlib2
      simp at hlib2
    · by_cases hid3 : k2 = "_id"
      · rw [hid3, dlookup_transformLib] at hmer
        simp [hnoid] at hmer
      · rw [dlookup_transformLib, if_neg hid2, if_neg hid3]
        obtain ⟨lv, hlv⟩ := Option.isSome_iff_exists.mp hlib2
        rw [hlv]
        rfl
  · subst hmerged
    rw [dlookup_pyDictSet, if_pos rfl, hmarks]

/-- A details-body run in which an embedded question identifier fails to
resolve in the built question map ends in a `KeyError`-class exception,
never an `HTTPException`, provided every step before the merge succeeds. -/
theorem details_body_error_of_unresolved
    {a : AssessmentData} {url : String} {qdata : List Doc}
    {qmap : List (String × Doc)}
    (hid : (dlookup a.fields "_id").isSome)
    (hstubs : ∀ sec ∈ a.sections, ∀ stub ∈ sec.questions,
      (dlookup stub "question_id").isSome)
    (hqp : (dlookup a.fields "question_paper").isSome)
    (hco : (dlookup a.fields "course").isSome)
    (hqm : buildQMap qdata = .ok qmap)
    (hmiss : ∃ sec ∈ a.sections, ∃ stub ∈ sec.questions,
      (dlookup stub "question_id").bind (qresolve qmap) = none) :
    ∃ k, details_body (some a) url qdata = .error (.keyError k) := by
  obtain ⟨idv, hidv⟩ := Option.isSome_iff_exists.mp hid
  obtain ⟨qids, hqids⟩ := collectQids_isOk hstubs
  have hqp1 : dlookup (pyDictSet (dictPop "_id" a.fields) "id"
      (.str (pyStr idv))) "question_paper" = dlookup a.fields "question_paper" := by
    rw [dlookup_pyDictSet, if_neg (by decide : ¬ ("question_paper" : String) = "id"),
      dlookup_dictPop, if_neg (by decide : ¬ ("question_paper" : String) = "_id")]
  obtain ⟨qpv, hqpv0⟩ := Option.isSome_iff_exists.mp hqp
  have hqpv : dlookup (pyDictSet (dictPop "_id" a.fields) "id"
      (.str (pyStr idv))) "question_paper" = some qpv := by rw [hqp1, hqpv0]
  have hco1 : dlookup (pyDictSet (pyDictSet (dictPop "_id" a.fields) "id"
      (.str (pyStr idv))) "question_paper" (.str url)) "course" =
      dlookup a.fields "course" := by
    rw [dlookup_pyDictSet, if_neg (by decide : ¬ ("course" : String) = "question_paper"),
      dlookup_pyDictSet, if_neg (by decide : ¬ ("course" : String) = "id"),
      dlookup_dictPop, if_neg (by decide : ¬ ("course" : String) = "_id")]
  obtain ⟨cov, hcov0⟩ := Option.isSome_iff_exists.mp hco
  have hcov : dlookup (pyDictSet (pyDictSet (dictPop "_id" a.fields) "id"
      (.str (pyStr idv))) "question_paper" (.str url)) "course" = some cov := by
    rw [hco1, hcov0]
  obtain ⟨sec, hsec, stub, hstub, hbind⟩ := hmiss
  obtain ⟨qv, hqv⟩ := Option.isSome_iff_exists.mp (hstubs sec hsec stub hstub)
  have hres : qresolve qmap qv = none := by
    rw [hqv] at hbind
    simpa using hbind
  have hsf : mergeStub qmap stub = .error (.keyError (pyStr qv)) := by
    unfold mergeStub
    simp only [hqv, hres]
  have hnotok : ∀ secs2, ¬ mergeSections qmap a.sections = .ok secs2 := by
    intro secs2 hok2
    obtain ⟨sec2, hsec2⟩ := exceptMap_ok_of_mem hok2 hsec
    obtain ⟨qs, hqs, -⟩ := mergeSection_ok_inv hsec2
    obtain ⟨d, hd⟩ := exceptMap_ok_of_mem hqs hstub
    rw [hsf] at hd
    simp at hd
  cases hms : mergeSections qmap a.sections with
  | ok secs2 => exact absurd hms (hnotok secs2)
  | error e =>
    obtain ⟨k, hk⟩ := mergeSections_error_keyError hms
    refine ⟨k, ?_⟩
    simp only [details_body]
    simp only [hidv, hqids, hqpv, hcov, hqm, hms, hk]

/-- C5: when the details fetch finds the assessment but some embedded
question identifier has no match in the bulk-fetched library result set,
the merge raises a non-HTTP lookup exception and the outer boundary maps
it to the generic 500 internal-error response — not a 404 and not a
partial result. -/
theorem get_assessment_details_unresolved_question_500
    (a : AssessmentData) (url : String) (qdata : List Doc)
    (qmap : List (String × Doc))
    (hid : (dlookup a.fields "_id").isSome)
    (hstubs : ∀ sec ∈ a.sections, ∀ stub ∈ sec.questions,
      (dlookup stub "question_id").isSome)
    (hqp : (dlookup a.fields "question_paper").isSome)
    (hco : (dlookup a.fields "course").isSome)
    (hqm : buildQMap qdata = .ok qmap)
    (hmiss : ∃ sec ∈ a.sections, ∃ stub ∈ sec.questions,
      (dlookup stub "question_id").bind (qresolve qmap) = none) :
    get_assessment_details (some a) url qdata =
      .error ⟨500, "Internal server error"⟩ := by
  obtain ⟨k, hk⟩ :=
    details_body_error_of_unresolved hid hstubs hqp hco hqm hmiss
  unfold get_assessment_details
  rw [hk]
  rfl

/-- Witness for C3: one stub resolved against a one-document library. -/
theorem get_assessment_details_merge_uses_library_fields_witness :
    get_assessment_details (some assessW) "signed" qdataW = .ok respW ∧
    (∀ q ∈ qdataW, dlookup q "id" = none) ∧
    assessW.sections[0]? = some secW ∧
    secW.questions[0]? = some stubW ∧
    dlookup stubW "_id" = none ∧
    (∃ sec2 merged, respW.data.sections[0]? = some sec2 ∧
      sec2.questions[0]? = some merged ∧
      sec2.meta = secW.meta ∧
      ∃ lib, lib ∈ qdataW ∧ ∃ w, dlookup lib "_id" = some w ∧
        dlookup stubW "question_id" = some (.str (pyStr w)) ∧
        (∀ k2, ¬ k2 = "marks" → (dlookup merged k2).isSome →
          (dlookup lib k2).isSome → dlookup merged k2 = dlookup lib k2) ∧
        dlookup merged "marks" = dlookup stubW "marks") :=
  ⟨rfl, by decide, rfl, rfl, rfl,
    get_assessment_details_merge_uses_library_fields assessW "signed" qdataW respW
      secW stubW 0 0 rfl (by decide) rfl rfl rfl⟩

/-- Witness for C5: the same assessment against an empty library fetch. -/
theorem get_assessment_details_unresolved_question_500_witness :
    (dlookup assessW.fields "_id").isSome ∧
    (∀ sec ∈ assessW.sections, ∀ stub ∈ sec.questions,
      (dlookup stub "question_id").isSome) ∧
    (dlookup assessW.fields "question_paper").isSome ∧
    (dlookup assessW.fields "course").isSome ∧
    buildQMap [] = .ok [] ∧
    (∃ sec ∈ assessW.sections, ∃ stub ∈ sec.questions,
      (dlookup stub "question_id").bind (qresolve []) = none) ∧
    get_assessment_details (some assessW) "signed" [] =
      .error ⟨500, "Internal server error"⟩ :=
  ⟨by decide, by decide, by decide, by decide, rfl, by decide,
    get_assessment_details_unresolved_question_500 assessW "signed" [] []
      (by decide) (by decide) (by decide) (by decide) rfl (by decide)⟩

end AssessmentService
